import Mathlib

/-!
Verification of the speculative-decoding Medusa tutorial notebook
(`notebook.ipynb`).  The notebook is a fixed sequence of shell / library
invocations; we embed each invocation's literal parameters and the
sequential execution order, and prove the specified properties about them.
-/

namespace Medusa

/-- A JSON value, as produced by `json.dump` and as sent in the curl body. -/
inductive Json where
  | str : String → Json
  | num : Int → Json
  | bool : Bool → Json
  | arr : List Json → Json
  | obj : List (String × Json) → Json
deriving Repr

/-- Field lookup in a JSON object (first match), `none` on non-objects. -/
def Json.getField : Json → String → Option Json
  | .obj fields, k => fields.lookup k
  | _, _ => none

/-- One split of the Hugging Face dataset: its `messages` column plus any
other columns it may carry. -/
structure Split where
  messages : List Json
  otherColumns : List (String × List Json)

/-- The dataset `philschmid/text-to-sql-dataset-medusa`: a `train` and a
`test` split. -/
structure Dataset where
  train : Split
  test : Split

/-- The dataset-fetch cell:
`json.dump(list(dataset["train"]["messages"]), f)` with
`open("train_dataset.json", "w")`.  Its effect on disk, as a list of
(path, content) writes. -/
def datasetFetchWrites (d : Dataset) : List (String × Json) :=
  [("train_dataset.json", Json.arr d.train.messages)]

/-- Look up the value following a flag in a command-line argument list. -/
def lookupArg (args : List (String × String)) (flag : String) : Option String :=
  args.lookup flag

/-- The argument list of the `torchrun ... Medusa/medusa/train/train_legacy.py`
invocation, literally as written in the notebook cell. -/
def trainArgs : List (String × String) :=
  [ ("--model_name_or_path", "philschmid/code-llama-3-1-8b-text-to-sql"),
    ("--data_path", "train_dataset.json"),
    ("--bf16", "True"),
    ("--output_dir", "code_llama31"),
    ("--num_train_epochs", "5"),
    ("--per_device_train_batch_size", "1"),
    ("--gradient_accumulation_steps", "4"),
    ("--eval_strategy", "no"),
    ("--save_strategy", "epoch"),
    ("--learning_rate", "5e-4"),
    ("--lr_scheduler_type", "cosine"),
    ("--warmup_steps", "40"),
    ("--logging_steps", "10"),
    ("--tf32", "True"),
    ("--model_max_length", "2048"),
    ("--lazy_preprocess", "False"),
    ("--medusa_num_heads", "3"),
    ("--medusa_num_layers", "1"),
    ("--deepspeed", "./Medusa/deepspeed.json") ]

/-- The argument list of the `python -m medusa.hf_utils` upload invocation. -/
def uploadArgs : List (String × String) :=
  [ ("--folder", "code_llama31_medusa"),
    ("--repo", "philschmid/code-llama-3-1-8b-text-to-sql-medusa") ]

/-- A `docker run` invocation of the TGI container, with every flag and
environment variable of the notebook's command. -/
structure DockerRun where
  cudaVisibleDevices : String
  gpus : String
  tty : Bool
  shmSize : String
  ipc : String
  removeOnExit : Bool
  portMapping : String
  env : List (String × String)
  image : String

/-- The `MODEL_ID` environment variable of a container invocation. -/
def DockerRun.modelId (c : DockerRun) : Option String :=
  c.env.lookup "MODEL_ID"

/-- The environment of a container invocation with the `MODEL_ID` entry
removed (everything a comparison of the two benchmark servers should agree
on). -/
def DockerRun.envSansModelId (c : DockerRun) : List (String × String) :=
  c.env.filter (fun p => p.1 ≠ "MODEL_ID")

/-- The `docker run` command serving the Medusa model, literally from the
notebook. -/
def medusaServerRun : DockerRun :=
  { cudaVisibleDevices := "0"
    gpus := "all"
    tty := true
    shmSize := "1g"
    ipc := "host"
    removeOnExit := true
    portMapping := "8080:80"
    env := [ ("MODEL_ID", "philschmid/code-llama-3-1-8b-text-to-sql-medusa"),
             ("NUM_SHARD", "1"),
             ("MAX_INPUT_TOKENS", "4096"),
             ("MAX_TOTAL_TOKENS", "6000") ]
    image := "ghcr.io/huggingface/text-generation-inference:sha-b70ae09" }

/-- The `docker run` command serving the baseline model, literally from the
notebook. -/
def baselineServerRun : DockerRun :=
  { cudaVisibleDevices := "0"
    gpus := "all"
    tty := true
    shmSize := "1g"
    ipc := "host"
    removeOnExit := true
    portMapping := "8080:80"
    env := [ ("MODEL_ID", "philschmid/code-llama-3-1-8b-text-to-sql"),
             ("NUM_SHARD", "1"),
             ("MAX_INPUT_TOKENS", "4096"),
             ("MAX_TOTAL_TOKENS", "6000") ]
    image := "ghcr.io/huggingface/text-generation-inference:sha-b70ae09" }

/-- An HTTP request as issued by a `curl` command. -/
structure HttpRequest where
  url : String
  method : String
  headers : List (String × String)
  body : Json

/-- The single test request of the notebook's `curl` cell. -/
def testRequest : HttpRequest :=
  { url := "localhost:8080/v1/chat/completions"
    method := "POST"
    headers := [("Content-Type", "application/json")]
    body := .obj
      [ ("model", .str "tgi"),
        ("messages", .arr
          [ .obj [ ("role", .str "user"),
                   ("content", .str "Write a poem for my three year old") ] ]),
        ("stream", .bool false),
        ("max_tokens", .num 250) ] }

/-- Modelled from the spec: the speculative-decoding execution loop and model
selection live in the external TGI server, whose code is not part of this
repository.  Per the spec, the inference server is an "external container"
that "exposes an HTTP chat-completions endpoint" and whose served model is
the artifact handed to it via the documented `MODEL_ID` environment
variable; the HTTP request it receives does not take part in that
selection. -/
def servedModel (c : DockerRun) (_ : HttpRequest) : Option String :=
  c.modelId

/-- The executed steps of the notebook, one constructor per command cell
(or narrated shell command), in notebook order. -/
inductive Step where
  | pipInstallTorch
  | datasetFetch
  | trainingJob
  | modelUpload
  | serverStartMedusa
  | testHttpRequest
  | pipInstallGuidellm
  | benchmarkMedusa
  | serverStartBaseline
  | benchmarkBaseline
deriving DecidableEq, Repr

/-- The notebook's commands in the order they appear. -/
def notebookSteps : List Step :=
  [ .pipInstallTorch, .datasetFetch, .trainingJob, .modelUpload,
    .serverStartMedusa, .testHttpRequest, .pipInstallGuidellm,
    .benchmarkMedusa, .serverStartBaseline, .benchmarkBaseline ]

/-- Whether a step issues an HTTP request of its own (only the curl cell
does; the benchmark steps delegate all requests to the external guidellm
tool). -/
def isHttpStep : Step → Bool
  | .testHttpRequest => true
  | _ => false

/-- The HTTP request a step issues, if any. -/
def stepRequest : Step → Option HttpRequest
  | .testHttpRequest => some testRequest
  | _ => none

/-- The steps of `l` strictly between the (first occurrence of) `a` and the
next occurrence of `b` after it. -/
def stepsBetween (l : List Step) (a b : Step) : List Step :=
  ((l.drop (l.indexOf a + 1)).takeWhile (fun s => s ≠ b))

/-- Execution events: a command is issued (`start`) and later completes
(`finish`). -/
inductive TraceEvent where
  | start : Step → TraceEvent
  | finish : Step → TraceEvent
deriving DecidableEq, Repr

/-- Sequential execution of the notebook: each command is issued, runs to
completion, and only then is the next command issued.  This is the
execution model of a notebook run top to bottom; no step's command is
issued before the previous one has finished. -/
def seqTrace : List Step → List TraceEvent
  | [] => []
  | s :: rest => .start s :: .finish s :: seqTrace rest

/-- Sequential execution in the presence of failures: each step runs once;
if it succeeds (`ok`) the next step runs, and if it fails the run stops
there.  The notebook defines no retry, backoff, validation or recovery
logic, so a failing step is simply the last step executed. -/
def runUntilFailure (ok : Step → Bool) : List Step → List Step
  | [] => []
  | s :: rest => if ok s then s :: runUntilFailure ok rest else [s]

/-- Tokens generated one by one, from the notebook's acceleration example. -/
def generatedTokens : ℕ := 17687

/-- Tokens speculatively accepted ("skipped"), from the notebook's
acceleration example. -/
def skippedTokens : ℕ := 27101

/-- Decoding iterations executed, from the notebook's acceleration
example. -/
def decodingIterations : ℕ := 27101

/-- The notebook's acceleration formula
`Acceleration = (Total Tokens (Generated + Skipped)) / (Number of Loops)`,
evaluated exactly over the rationals. -/
def acceleration : ℚ :=
  (generatedTokens + skippedTokens : ℚ) / decodingIterations

/-- Round a rational to two decimal places (nearest hundredth). -/
def roundToHundredths (q : ℚ) : ℚ := (round (q * 100) : ℚ) / 100

/-- A success predicate under which the training job fails and every other
step succeeds (used to exercise the failure semantics on a concrete run). -/
def demoFailure : Step → Bool
  | .trainingJob => false
  | _ => true

/-- A concrete dataset whose test split is empty and whose columns are just
`messages`. -/
def demoDatasetA : Dataset :=
  { train := { messages := [.str "m"], otherColumns := [] }
    test := { messages := [], otherColumns := [] } }

/-- A concrete dataset with the same train messages as `demoDatasetA` but a
different test split and an extra train column. -/
def demoDatasetB : Dataset :=
  { train := { messages := [.str "m"], otherColumns := [("sql", [.str "q"])] }
    test := { messages := [.str "t"], otherColumns := [] } }

end Medusa

namespace Medusa

/-- C1: the acceleration formula on the narrated counts — 17687 generated
tokens plus 27101 speculatively accepted tokens over 27101 decoding
iterations — is exactly (17687 + 27101) / 27101 = 44788 / 27101, and this
exact rational rounds to 1.65, the figure the narrative asserts. -/
theorem acceleration_value_rounds_to_1_65 :
    acceleration = (17687 + 27101 : ℚ) / 27101 ∧
    acceleration = 44788 / 27101 ∧
    roundToHundredths acceleration = 1.65 := by
  refine ⟨rfl, by norm_num [acceleration, generatedTokens, skippedTokens,
    decodingIterations], ?_⟩
  have h : acceleration * 100 = 4478800 / 27101 := by
    norm_num [acceleration, generatedTokens, skippedTokens, decodingIterations]
  have hr : round (acceleration * 100) = 165 := by
    rw [h, round_eq, Int.floor_eq_iff]
    norm_num
  rw [roundToHundredths, hr]; norm_num

/-- C2: the dataset-fetch step writes the train split's message records as
a single JSON list to `train_dataset.json`, and that exact path is the
`--data_path` argument of the training invocation. -/
theorem dataset_json_path_matches_data_path (d : Dataset) :
    datasetFetchWrites d = [("train_dataset.json", Json.arr d.train.messages)] ∧
    lookupArg trainArgs "--data_path" = some "train_dataset.json" := by
  exact ⟨rfl, by decide⟩

/-- C3 counterexample: the claim that the training job's `--output_dir` and
the upload utility's `--folder` name one and the same directory is false on
the notebook's literal commands: training writes `code_llama31` while the
upload reads `code_llama31_medusa`. -/
theorem output_dir_ne_upload_folder :
    ¬ lookupArg trainArgs "--output_dir" = lookupArg uploadArgs "--folder" := by
  decide

/-- C3 (amended): the training checkpoint directory and the folder handed
to the upload utility are distinct identifiers: `--output_dir` is
`code_llama31` while `--folder` is `code_llama31_medusa`, i.e. the output
directory with the suffix `_medusa` appended. -/
theorem output_dir_and_upload_folder_values :
    lookupArg trainArgs "--output_dir" = some "code_llama31" ∧
    lookupArg uploadArgs "--folder" = some "code_llama31_medusa" ∧
    "code_llama31_medusa" = "code_llama31" ++ "_medusa" := by
  refine ⟨by decide, by decide, rfl⟩

/-- C4: the model identifier pushed to the hub (the upload's `--repo`
argument) is the very identifier handed to the Medusa inference-server
container as its `MODEL_ID` environment variable. -/
theorem upload_repo_matches_server_model_id :
    lookupArg uploadArgs "--repo" = medusaServerRun.modelId ∧
    medusaServerRun.modelId =
      some "philschmid/code-llama-3-1-8b-text-to-sql-medusa" := by
  refine ⟨by decide, by decide⟩

/-- C5: between the server start and the benchmark run, the notebook issues
exactly one HTTP request of its own — the curl cell — and that request is a
POST to `localhost:8080/v1/chat/completions` carrying a single user
message, with streaming disabled and a 250-token limit. -/
theorem single_test_request_between_server_and_benchmark :
    (stepsBetween notebookSteps .serverStartMedusa .benchmarkMedusa).filter
        isHttpStep = [.testHttpRequest] ∧
    stepRequest .testHttpRequest = some testRequest ∧
    testRequest.method = "POST" ∧
    testRequest.url = "localhost:8080/v1/chat/completions" ∧
    testRequest.body.getField "stream" = some (.bool false) ∧
    testRequest.body.getField "max_tokens" = some (.num 250) ∧
    testRequest.body.getField "messages" =
      some (.arr [.obj [ ("role", .str "user"),
        ("content", .str "Write a poem for my three year old") ]]) := by
  exact ⟨by decide, rfl, rfl, rfl, rfl, rfl, rfl⟩

/-- C6: in the sequential execution trace of the notebook, the five
external invocations occur in the fixed order dataset fetch, training job,
model upload, server start, benchmark run; each is issued exactly once, and
each step's command completes before the next step's command is issued. -/
theorem external_invocations_in_fixed_order :
    (seqTrace notebookSteps).count (.start .datasetFetch) = 1 ∧
    (seqTrace notebookSteps).count (.start .trainingJob) = 1 ∧
    (seqTrace notebookSteps).count (.start .modelUpload) = 1 ∧
    (seqTrace notebookSteps).count (.start .serverStartMedusa) = 1 ∧
    (seqTrace notebookSteps).count (.start .benchmarkMedusa) = 1 ∧
    (seqTrace notebookSteps).indexOf (.finish .datasetFetch) <
      (seqTrace notebookSteps).indexOf (.start .trainingJob) ∧
    (seqTrace notebookSteps).indexOf (.finish .trainingJob) <
      (seqTrace notebookSteps).indexOf (.start .modelUpload) ∧
    (seqTrace notebookSteps).indexOf (.finish .modelUpload) <
      (seqTrace notebookSteps).indexOf (.start .serverStartMedusa) ∧
    (seqTrace notebookSteps).indexOf (.finish .serverStartMedusa) <
      (seqTrace notebookSteps).indexOf (.start .benchmarkMedusa) := by
  decide

/-- Helper: a failing run executes the successful steps before the failing
one, then the failing one, and nothing after it. -/
theorem runUntilFailure_eq_of_first_failure (ok : Step → Bool)
    (pre post : List Step) (s : Step)
    (hpre : ∀ t ∈ pre, ok t = true) (hs : ok s = false) :
    runUntilFailure ok (pre ++ s :: post) = pre ++ [s] := by
  induction pre with
  | nil => simp [runUntilFailure, hs]
  | cons a l ih =>
      have ha : ok a = true := hpre a (by simp)
      simp only [List.cons_append, runUntilFailure, ha, if_true,
        List.cons.injEq, true_and]
      exact ih (fun t ht => hpre t (by simp [ht]))

/-- C7: the notebook performs no retry, validation or recovery: under the
sequential failure semantics, if a step fails then execution consists of
the earlier steps and the failing step, each executed once, and no
subsequent step is ever executed. -/
theorem failure_aborts_sequence (ok : Step → Bool)
    (pre post : List Step) (s : Step)
    (hsteps : notebookSteps = pre ++ s :: post)
    (hpre : ∀ t ∈ pre, ok t = true) (hs : ok s = false) :
    runUntilFailure ok notebookSteps = pre ++ [s] ∧
    (∀ u ∈ post, u ∉ runUntilFailure ok notebookSteps) ∧
    (runUntilFailure ok notebookSteps).Nodup := by
  have hnd : notebookSteps.Nodup := by decide
  rw [hsteps] at hnd ⊢
  have hrun := runUntilFailure_eq_of_first_failure ok pre post s hpre hs
  rw [hrun]
  rw [List.nodup_append] at hnd
  obtain ⟨hpreNd, hconsNd, hdisj⟩ := hnd
  rw [List.nodup_cons] at hconsNd
  refine ⟨rfl, ?_, ?_⟩
  · intro u hu
    rw [List.mem_append, List.mem_singleton]
    rintro (hmem | rfl)
    · exact hdisj hmem (List.mem_cons_of_mem s hu)
    · exact hconsNd.1 hu
  · rw [List.nodup_append]
    refine ⟨hpreNd, List.nodup_singleton s, ?_⟩
    intro u hu hmem
    rw [List.mem_singleton] at hmem
    subst hmem
    exact hdisj hu (List.mem_cons_self u post)

/-- Witness for C7: a run in which the training job fails executes only the
install, dataset-fetch and training steps, and the benchmark step never
runs. -/
theorem failure_aborts_sequence_witness :
    runUntilFailure demoFailure notebookSteps =
      [Step.pipInstallTorch, Step.datasetFetch] ++ [Step.trainingJob] ∧
    Step.benchmarkMedusa ∉ runUntilFailure demoFailure notebookSteps := by
  have h := failure_aborts_sequence demoFailure
    [Step.pipInstallTorch, Step.datasetFetch]
    [Step.modelUpload, Step.serverStartMedusa, Step.testHttpRequest,
     Step.pipInstallGuidellm, Step.benchmarkMedusa, Step.serverStartBaseline,
     Step.benchmarkBaseline]
    Step.trainingJob (by decide) (by decide) (by decide)
  exact ⟨h.1, h.2.1 Step.benchmarkMedusa (by decide)⟩

/-- C8: the two benchmark `docker run` commands agree on every parameter —
GPU selection, tty, shm size, ipc mode, remove-on-exit, port mapping, the
non-MODEL_ID environment variables and the pinned image tag — and differ
only in the MODEL_ID environment variable. -/
theorem benchmark_servers_differ_only_in_model_id :
    medusaServerRun.cudaVisibleDevices = baselineServerRun.cudaVisibleDevices ∧
    medusaServerRun.gpus = baselineServerRun.gpus ∧
    medusaServerRun.tty = baselineServerRun.tty ∧
    medusaServerRun.shmSize = baselineServerRun.shmSize ∧
    medusaServerRun.ipc = baselineServerRun.ipc ∧
    medusaServerRun.removeOnExit = baselineServerRun.removeOnExit ∧
    medusaServerRun.portMapping = baselineServerRun.portMapping ∧
    medusaServerRun.image = baselineServerRun.image ∧
    medusaServerRun.envSansModelId = baselineServerRun.envSansModelId ∧
    medusaServerRun.envSansModelId =
      [ ("NUM_SHARD", "1"), ("MAX_INPUT_TOKENS", "4096"),
        ("MAX_TOTAL_TOKENS", "6000") ] ∧
    medusaServerRun.modelId =
      some "philschmid/code-llama-3-1-8b-text-to-sql-medusa" ∧
    baselineServerRun.modelId =
      some "philschmid/code-llama-3-1-8b-text-to-sql" ∧
    medusaServerRun.modelId ≠ baselineServerRun.modelId := by
  decide

/-- C9: the dataset-serialization step writes exactly one file,
`train_dataset.json`, and its content depends only on the train split's
`messages` column: any two datasets agreeing there produce identical
writes, so the test split and every other column are never written. -/
theorem dataset_fetch_writes_only_train_messages (dA dB : Dataset)
    (h : dA.train.messages = dB.train.messages) :
    datasetFetchWrites dA = datasetFetchWrites dB ∧
    (datasetFetchWrites dA).map Prod.fst = ["train_dataset.json"] ∧
    (datasetFetchWrites dA).length = 1 := by
  simp [datasetFetchWrites, h]

/-- Witness for C9: two concrete datasets differing in their test split and
in an extra train column, but with equal train messages, yield the same
single write to `train_dataset.json`. -/
theorem dataset_fetch_writes_only_train_messages_witness :
    datasetFetchWrites demoDatasetA = datasetFetchWrites demoDatasetB ∧
    (datasetFetchWrites demoDatasetA).map Prod.fst = ["train_dataset.json"] ∧
    (datasetFetchWrites demoDatasetA).length = 1 :=
  dataset_fetch_writes_only_train_messages demoDatasetA demoDatasetB rfl

/-- C10: the test request names the model by the literal string "tgi" —
not by the uploaded hub identifier — and the served model is selected
solely by the container's MODEL_ID environment variable, independent of
any request. -/
theorem test_request_model_field_is_literal_tgi :
    testRequest.body.getField "model" = some (.str "tgi") ∧
    medusaServerRun.modelId ≠ some "tgi" ∧
    (∀ r : HttpRequest, servedModel medusaServerRun r = medusaServerRun.modelId) ∧
    servedModel medusaServerRun testRequest =
      some "philschmid/code-llama-3-1-8b-text-to-sql-medusa" := by
  exact ⟨rfl, by decide, fun r => rfl, by decide⟩

end Medusa
